import Mathlib

/-!
Verification development for the sumy automatic text summarizer.

The repository excerpt contains `sumy/evaluation/__main__.py` (the evaluation
CLI: summarizer builders, the per-metric evaluation loop) and the LSA
summarizer's test suite.  The summarizer implementations, the term-frequency
model and the metric functions themselves are referenced but their modules are
not part of the excerpt, so those operations are modelled from the
specification (each such definition says so in its doc comment); the
definitions for the evaluation CLI are translated directly from
`sumy/evaluation/__main__.py`.
-/

namespace Sumy

/-! ### Ranking strategies: shared selection pipeline -/

/-- Modelled from the spec: the selection step shared by every ranking
strategy (spec §4.2–§4.5).  Given per-sentence scores for a document of `m`
sentences, sort the sentence indices by score descending (stable, so ties are
broken by lower original index), keep the first `n`, and re-sort the kept
indices back into original document order.  `mergeSort` is stable, which gives
exactly the documented tie-break. -/
def selectIndices (m n : ℕ) (score : ℕ → ℚ) : List ℕ :=
  ((((List.range m).mergeSort (fun i j => score j ≤ score i)).take n).mergeSort)

/-- Modelled from the spec: a strategy invocation returns the sentences at the
selected indices, in original document order (spec §3 invariant).  The
summarizer implementations are not part of the excerpt; each of them feeds its
own rating into this shared pipeline. -/
def summarize {α : Type} (sentences : List α) (score : ℕ → ℚ) (n : ℕ) : List α :=
  (selectIndices sentences.length n score).filterMap (fun i => sentences[i]?)

/-- Modelled from the spec: a ranking strategy is determined by its rating
function (document → sentence index → score); random, Luhn, Edmundson and LSA
each instantiate `rate` with their own scoring (spec §4.2–§4.5, §9). -/
def runStrategy {α : Type} (rate : List α → ℕ → ℚ) (sentences : List α) (n : ℕ) : List α :=
  summarize sentences (rate sentences) n

/-- Availability of the optional numeric dependencies used by the LSA
strategy (the test suite toggles `lsa_module.numpy` and
`lsa_module.singular_value_decomposition` independently). -/
structure LsaDeps where
  numpyAvailable : Bool
  svdAvailable : Bool
deriving DecidableEq

/-- Error kinds surfaced by a strategy invocation (spec §7). -/
inductive SummarizerError where
  | configurationError (message : String)
deriving DecidableEq

/-- The error raised when the decomposition dependency is missing. -/
def lsaDependencyError : SummarizerError :=
  .configurationError "LSA summarizer requires NumPy and SciPy to be installed"

/-- Modelled from the spec: the LSA strategy (`LsaSummarizer.__call__` is not
part of the excerpt).  It first checks that the decomposition dependencies are
importable and fails fast with a configuration error otherwise — the test
suite (`test_numpy_not_installed`, `test_scipy_not_installed`) exercises this
check on an *empty* document, so the check precedes any look at the document.
With the dependencies present it rates sentences via the decomposition
(abstracted as `svdRate`) and runs the shared selection pipeline. -/
def lsaSummarizer {α : Type} (deps : LsaDeps) (svdRate : List α → ℕ → ℚ)
    (sentences : List α) (n : ℕ) : Except SummarizerError (List α) :=
  if deps.numpyAvailable = false ∨ deps.svdAvailable = false then
    .error lsaDependencyError
  else
    .ok (summarize sentences (svdRate sentences) n)

/-! ### Helper lemmas about the selection pipeline -/

theorem filterMap_getElem_range {α : Type} (l : List α) :
    (List.range l.length).filterMap (fun i => l[i]?) = l := by
  induction l with
  | nil => simp
  | cons a l ih =>
    have hcomp : (fun i => (a :: l)[i]?) ∘ Nat.succ = fun i => l[i]? := by
      funext i
      simp
    simp only [List.length_cons, List.range_succ_eq_map, List.filterMap_cons,
      List.getElem?_cons_zero, List.filterMap_map, hcomp]
    rw [ih]

theorem length_filterMap_getElem {α : Type} (l : List α) (is : List ℕ)
    (h : ∀ i ∈ is, i < l.length) :
    (is.filterMap (fun i => l[i]?)).length = is.length := by
  induction is with
  | nil => simp
  | cons i is ih =>
    have hi : i < l.length := h i (List.mem_cons_self i is)
    rw [List.filterMap_cons, List.getElem?_eq_getElem hi]
    simpa using ih (fun j hj => h j (List.mem_cons_of_mem i hj))

theorem selectIndices_sublist_range (m n : ℕ) (score : ℕ → ℚ) :
    (selectIndices m n score).Sublist (List.range m) := by
  unfold selectIndices
  set D := (List.range m).mergeSort (fun i j => score j ≤ score i) with hD
  have hsub : List.Subperm ((D.take n).mergeSort) (List.range m) := by
    have h1 : List.Subperm ((D.take n).mergeSort) (D.take n) :=
      (List.mergeSort_perm (D.take n) _).subperm
    have h2 : List.Subperm (D.take n) D := (List.take_sublist n D).subperm
    have h3 : List.Subperm D (List.range m) := (List.mergeSort_perm (List.range m) _).subperm
    exact (h1.trans h2).trans h3
  exact List.sublist_of_subperm_of_sorted hsub
    (List.sorted_mergeSort' (D.take n)) (List.sorted_le_range m)

theorem selectIndices_length (m n : ℕ) (score : ℕ → ℚ) :
    (selectIndices m n score).length = min n m := by
  simp [selectIndices]

theorem selectIndices_mem_lt (m n : ℕ) (score : ℕ → ℚ) :
    ∀ i ∈ selectIndices m n score, i < m := by
  intro i hi
  exact List.mem_range.mp ((selectIndices_sublist_range m n score).mem hi)

theorem summarize_sublist {α : Type} (sentences : List α) (score : ℕ → ℚ) (n : ℕ) :
    (summarize sentences score n).Sublist sentences := by
  have h := (selectIndices_sublist_range sentences.length n score).filterMap
    (fun i => sentences[i]?)
  rwa [filterMap_getElem_range] at h

theorem summarize_length {α : Type} (sentences : List α) (score : ℕ → ℚ) (n : ℕ) :
    (summarize sentences score n).length = min n sentences.length := by
  unfold summarize
  rw [length_filterMap_getElem sentences _ (selectIndices_mem_lt sentences.length n score)]
  exact selectIndices_length sentences.length n score

/-! ### Sentences and the term-frequency model

Words are taken after the upstream normalization/stemming step (the spec's
external stop-word/stemmer provider explicitly allows identity stemming, §6),
so a word is just a `String` and two words are the same term when the strings
are equal. -/

/-- A parsed sentence as seen by the evaluation layer: the only attribute the
metrics read is `words` (`s.words` in `sumy/evaluation/__main__.py`). -/
structure Sentence where
  words : List String
deriving DecidableEq

/-- Modelled from the spec: `TfDocumentModel` (its module is not part of the
excerpt) maps each term to its occurrence count over the word sequence it was
built from (spec §3, §4.1). -/
structure TfDocumentModel where
  words : List String
deriving DecidableEq

/-- Occurrence count of a term (spec §3: word → occurrence count). -/
def TfDocumentModel.termFrequency (m : TfDocumentModel) (w : String) : ℕ :=
  m.words.count w

/-- The set of distinct terms with nonzero frequency. -/
def TfDocumentModel.terms (m : TfDocumentModel) : Finset String :=
  m.words.toFinset

/-- Dot product of the two frequency vectors, summed over every term that
occurs in either model (terms outside contribute a zero factor). -/
def dotProduct (a b : TfDocumentModel) : ℕ :=
  Finset.sum (a.terms ∪ b.terms) (fun w => a.termFrequency w * b.termFrequency w)

/-- Squared Euclidean norm of the frequency vector. -/
def TfDocumentModel.magnitudeSq (m : TfDocumentModel) : ℕ :=
  dotProduct m m

/-- Modelled from the spec: "magnitude" = Euclidean norm of the frequency
vector (spec §3). -/
noncomputable def TfDocumentModel.magnitude (m : TfDocumentModel) : ℝ :=
  Real.sqrt m.magnitudeSq

/-- Modelled from the spec: `cosine_similarity` = dot product divided by the
product of magnitudes, defined as `0` when either magnitude is zero
(spec §4.6). -/
noncomputable def cosine_similarity (a b : TfDocumentModel) : ℝ :=
  if a.magnitudeSq = 0 ∨ b.magnitudeSq = 0 then 0
  else (dotProduct a b : ℝ) / (a.magnitude * b.magnitude)

/-- Modelled from the spec: `unit_overlap` = Jaccard-style ratio
`|A∩B| / (|A| + |B| − |A∩B|)` over the distinct-term sets, with the `0/0`
case defined as `0` (spec §4.6). -/
def unit_overlap (a b : TfDocumentModel) : ℚ :=
  if a.terms.card + b.terms.card - (a.terms ∩ b.terms).card = 0 then 0
  else ((a.terms ∩ b.terms).card : ℚ) /
    ((a.terms.card + b.terms.card - (a.terms ∩ b.terms).card : ℕ) : ℚ)

/-- All words of a sentence collection, flattened in order — the
`chain(*(s.words for s in sentences))` idiom of
`sumy/evaluation/__main__.py`. -/
def wordsOf (sentences : List Sentence) : List String :=
  (sentences.map Sentence.words).flatten

/-- The set of distinct words of a sentence collection. -/
def wordSet (sentences : List Sentence) : Finset String :=
  (wordsOf sentences).toFinset

/-- Modelled from the spec: `precision` = `|evaluated ∩ reference words| /
|evaluated words|` over the distinct-word sets, `0` when the evaluated
collection has no words (spec §4.6). -/
def precision (evaluated reference : List Sentence) : ℚ :=
  if wordSet evaluated = ∅ then 0
  else ((wordSet evaluated ∩ wordSet reference).card : ℚ) / (wordSet evaluated).card

/-- Modelled from the spec: `recall` = `|evaluated ∩ reference words| /
|reference words|`, `0` when the reference has no words (spec §4.6). -/
def «recall» (evaluated reference : List Sentence) : ℚ :=
  if wordSet reference = ∅ then 0
  else ((wordSet evaluated ∩ wordSet reference).card : ℚ) / (wordSet reference).card

/-- Modelled from the spec: `f_score` with weight `β` is the harmonic
combination `(1+β²)·P·R / (β²·P + R)`, defined as `0` when precision and
recall are both zero (spec §4.6). -/
def f_score (evaluated reference : List Sentence) (β : ℚ) : ℚ :=
  if precision evaluated reference = 0 ∧ «recall» evaluated reference = 0 then 0
  else (1 + β ^ 2) * precision evaluated reference * «recall» evaluated reference /
    (β ^ 2 * precision evaluated reference + «recall» evaluated reference)

/-! ### The evaluation CLI (`sumy/evaluation/__main__.py`) -/

/-- `evaluate_cosine_similarity` (lines 83–89): flatten both sentence
collections to word tuples, build a `TfDocumentModel` from each, and take
their cosine similarity. -/
noncomputable def evaluate_cosine_similarity (evaluated_sentences reference_sentences : List Sentence) : ℝ :=
  cosine_similarity ⟨wordsOf evaluated_sentences⟩ ⟨wordsOf reference_sentences⟩

/-- `evaluate_unit_overlap` (lines 92–98): flatten both sentence collections
to word tuples, build a `TfDocumentModel` from each, and take their unit
overlap. -/
def evaluate_unit_overlap (evaluated_sentences reference_sentences : List Sentence) : ℚ :=
  unit_overlap ⟨wordsOf evaluated_sentences⟩ ⟨wordsOf reference_sentences⟩

/-- `AVAILABLE_EVALUATIONS` (lines 107–115): metric name, whether the metric
is evaluated against the full document rather than the reference summary, and
the metric function.  `f_score` is applied at its default weight `β = 1`. -/
noncomputable def AVAILABLE_EVALUATIONS :
    List (String × Bool × (List Sentence → List Sentence → ℝ)) :=
  [("Precision", false, fun e r => (precision e r : ℝ)),
   ("Recall", false, fun e r => («recall» e r : ℝ)),
   ("F-score", false, fun e r => (f_score e r 1 : ℝ)),
   ("Cosine similarity", false, evaluate_cosine_similarity),
   ("Cosine similarity (document)", true, evaluate_cosine_similarity),
   ("Unit overlap", false, fun e r => (evaluate_unit_overlap e r : ℝ)),
   ("Unit overlap (document)", true, fun e r => (evaluate_unit_overlap e r : ℝ))]

/-- The metric loop of `main` (lines 126–131): each metric is computed against
the document's sentences when its `evaluate_document` flag is set and against
the parsed reference summary's sentences otherwise; the printed value is
paired with the metric name. -/
noncomputable def evaluationResults (evaluated_sentences document_sentences reference_sentences : List Sentence) :
    List (String × ℝ) :=
  AVAILABLE_EVALUATIONS.map (fun e =>
    (e.1, if e.2.1 then e.2.2 evaluated_sentences document_sentences
          else e.2.2 evaluated_sentences reference_sentences))

/-! ### Length specification (`ItemsCount`)

`handle_arguments` builds `ItemsCount(args["--length"])`; the `ItemsCount`
class itself (in `sumy/utils.py`) is not part of the excerpt. -/

/-- Modelled from the spec: a length specification is either an absolute
sentence count or a percentage of the document's sentence count (spec §3,
§6). -/
inductive ItemsCount where
  | absolute (count : ℕ)
  | percentage (percent : ℕ)
deriving DecidableEq

/-- Value of a decimal digit character, `none` for any other character. -/
def charDigit (c : Char) : Option ℕ :=
  if '0' ≤ c ∧ c ≤ '9' then some (c.toNat - '0'.toNat) else none

/-- Parse a nonempty all-digit character list as a natural number. -/
def parseNatDigits (cs : List Char) : Option ℕ :=
  if cs = [] then none
  else cs.foldl (fun acc c => acc.bind (fun n => (charDigit c).map (fun d => 10 * n + d)))
    (some 0)

/-- Modelled from the spec: the accepted forms of the `--length` argument — a
bare integer (absolute sentence count) or a percentage string such as `"20%"`
(spec §6). -/
def ItemsCount.parse (s : String) : Option ItemsCount :=
  if s.data.getLast? = some '%' then
    (parseNatDigits s.data.dropLast).map ItemsCount.percentage
  else
    (parseNatDigits s.data).map ItemsCount.absolute

/-- Modelled from the spec: resolving a length specification against a
document's sentence count at call time — a percentage takes its floor (the
single deterministic rounding rule of this implementation) and the result is
clamped into `[0, total]` (spec §6, §8). -/
def ItemsCount.resolve : ItemsCount → ℕ → ℕ
  | .absolute count, total => min count total
  | .percentage percent, total => min (percent * total / 100) total

/-! ### Summarizer builders of the evaluation CLI -/

/-- The attributes of the parsed input document that `build_edmundson` reads
(`parser.significant_words`, `parser.stigma_words`). -/
structure ParserOutput where
  significant_words : List String
  stigma_words : List String
deriving DecidableEq

/-- The configuration a builder hands to its summarizer: which language the
stemmer and the word lists come from.  `none` means the summarizer is
constructed without that resource. -/
structure SummarizerConfig where
  stemmerLanguage : Option String
  stopWordsLanguage : Option String
  nullWordsLanguage : Option String
  bonusWords : Option (List String)
  stigmaWords : Option (List String)
deriving DecidableEq

/-- `build_random` (lines 56–57): `RandomSummarizer()` — no stemmer, no word
lists. -/
def build_random (_parsed : ParserOutput) : SummarizerConfig :=
  ⟨none, none, none, none, none⟩

/-- `build_luhn` (lines 60–64): `LuhnSummarizer(stem_word)` with
`stop_words = get_stop_words("cs")` — the Czech stemmer and Czech stop
words. -/
def build_luhn (_parsed : ParserOutput) : SummarizerConfig :=
  ⟨some "cs", some "cs", none, none, none⟩

/-- `build_edmundson` (lines 67–73): `EdmundsonSummarizer(stem_word)` with
`null_words = get_stop_words("cs")` and bonus/stigma words taken from the
parsed document. -/
def build_edmundson (parsed : ParserOutput) : SummarizerConfig :=
  ⟨some "cs", none, some "cs", some parsed.significant_words, some parsed.stigma_words⟩

/-- `build_lsa` (lines 76–80): `LsaSummarizer(stem_word)` with
`stop_words = get_stop_words("cs")`. -/
def build_lsa (_parsed : ParserOutput) : SummarizerConfig :=
  ⟨some "cs", some "cs", none, none, none⟩

/-- `AVAILABLE_METHODS` (lines 101–106): CLI keyword → summarizer builder. -/
def AVAILABLE_METHODS : List (String × (ParserOutput → SummarizerConfig)) :=
  [("random", build_random), ("luhn", build_luhn),
   ("edmundson", build_edmundson), ("lsa", build_lsa)]

/-- `handle_arguments` (line 154) tokenizes the input document with
`Tokenizer("czech")` whatever the command-line arguments were. -/
def inputTokenizerLanguage : String := "czech"

/-- `main` (line 123) tokenizes the reference summary with
`Tokenizer("czech")` whatever the command-line arguments were. -/
def referenceTokenizerLanguage : String := "czech"

/-! ### Helper lemmas about the term-frequency model -/

theorem termFrequency_eq_zero (m : TfDocumentModel) (w : String) (h : w ∉ m.terms) :
    m.termFrequency w = 0 := by
  rw [TfDocumentModel.terms, List.mem_toFinset] at h
  exact List.count_eq_zero.mpr h

theorem dotProduct_comm (a b : TfDocumentModel) : dotProduct a b = dotProduct b a := by
  unfold dotProduct
  rw [Finset.union_comm]
  exact Finset.sum_congr rfl (fun w _ => Nat.mul_comm _ _)

theorem dotProduct_disjoint_eq_zero (a b : TfDocumentModel)
    (h : a.terms ∩ b.terms = ∅) : dotProduct a b = 0 := by
  unfold dotProduct
  apply Finset.sum_eq_zero
  intro w _
  by_cases hwa : w ∈ a.terms
  · have hwb : w ∉ b.terms := fun hb =>
      (Finset.not_mem_empty w) (h ▸ Finset.mem_inter.mpr ⟨hwa, hb⟩)
    rw [termFrequency_eq_zero b w hwb, Nat.mul_zero]
  · rw [termFrequency_eq_zero a w hwa, Nat.zero_mul]

/-- Evaluate `precision` from the two finite cardinalities. -/
theorem precision_eval (evaluated reference : List Sentence) (i e : ℕ)
    (hne : wordSet evaluated ≠ ∅)
    (hi : (wordSet evaluated ∩ wordSet reference).card = i)
    (he : (wordSet evaluated).card = e) :
    precision evaluated reference = (i : ℚ) / e := by
  unfold precision
  rw [if_neg hne, hi, he]

/-- Evaluate `recall` from the two finite cardinalities. -/
theorem recall_eval (evaluated reference : List Sentence) (i r : ℕ)
    (hne : wordSet reference ≠ ∅)
    (hi : (wordSet evaluated ∩ wordSet reference).card = i)
    (hr : (wordSet reference).card = r) :
    «recall» evaluated reference = (i : ℚ) / r := by
  unfold «recall»
  rw [if_neg hne, hi, hr]

/-! ### Claim C1 -/

/-- Claim C1: for every document, every ranking strategy (random, Luhn,
Edmundson, LSA — each an instantiation of the shared rating-then-selection
pipeline, quantified here by its rating function) and every resolved length
target `n`, the returned sentence list is a sublist of the document's
sentences — hence a subset appearing in the original document order, whatever
the internal scoring order — and its length is `min n (sentence count)`; the
same holds for the list returned on the LSA strategy's success path. -/
theorem strategy_output_is_ordered_subset {α : Type} :
    (∀ (rate : List α → ℕ → ℚ) (sentences : List α) (n : ℕ),
        (runStrategy rate sentences n).Sublist sentences ∧
        (runStrategy rate sentences n).length = min n sentences.length) ∧
    (∀ (deps : LsaDeps) (svdRate : List α → ℕ → ℚ) (sentences : List α) (n : ℕ)
        (output : List α),
        lsaSummarizer deps svdRate sentences n = .ok output →
        output.Sublist sentences ∧ output.length = min n sentences.length) := by
  constructor
  · intro rate sentences n
    exact ⟨summarize_sublist _ _ _, summarize_length _ _ _⟩
  · intro deps svdRate sentences n output h
    unfold lsaSummarizer at h
    split at h
    · exact Except.noConfusion h
    · injection h with h
      subst h
      exact ⟨summarize_sublist _ _ _, summarize_length _ _ _⟩

/-- Witness for C1: the LSA success-path hypothesis discharged on a concrete
two-sentence document with a one-sentence target. -/
theorem strategy_output_is_ordered_subset_witness :
    lsaSummarizer ⟨true, true⟩ (fun _ _ => (0 : ℚ)) ["a", "b"] 1 =
      .ok (runStrategy (fun _ _ => (0 : ℚ)) ["a", "b"] 1) ∧
    (runStrategy (fun _ _ => (0 : ℚ)) ["a", "b"] 1).Sublist ["a", "b"] ∧
    (runStrategy (fun _ _ => (0 : ℚ)) ["a", "b"] 1).length = min 1 (["a", "b"].length) :=
  ⟨rfl, strategy_output_is_ordered_subset.2 ⟨true, true⟩ (fun _ _ => 0) ["a", "b"] 1
    (runStrategy (fun _ _ => (0 : ℚ)) ["a", "b"] 1) rfl⟩

/-! ### Claim C2 -/

/-- Claim C2: invoking the LSA strategy with a decomposition dependency
unavailable on a non-empty document yields the configuration error — never an
`.ok` result — so callers can distinguish this failure from the
no-eligible-sentences outcome `.ok []`. -/
theorem lsa_missing_dependency_fails {α : Type} (deps : LsaDeps)
    (svdRate : List α → ℕ → ℚ) (sentences : List α) (n : ℕ)
    (hdeps : deps.numpyAvailable = false ∨ deps.svdAvailable = false)
    (_hne : sentences ≠ []) :
    lsaSummarizer deps svdRate sentences n = .error lsaDependencyError ∧
    ∀ output : List α, lsaSummarizer deps svdRate sentences n ≠ .ok output := by
  have h : lsaSummarizer deps svdRate sentences n = .error lsaDependencyError := by
    unfold lsaSummarizer
    rw [if_pos hdeps]
  refine ⟨h, fun output hok => ?_⟩
  rw [h] at hok
  exact Except.noConfusion hok

/-- Witness for C2: numpy unavailable, a one-sentence document. -/
theorem lsa_missing_dependency_fails_witness :
    lsaSummarizer ⟨false, true⟩ (fun _ _ => (0 : ℚ)) ["a"] 10 = .error lsaDependencyError ∧
    ∀ output : List String,
      lsaSummarizer ⟨false, true⟩ (fun _ _ => (0 : ℚ)) ["a"] 10 ≠ .ok output :=
  lsa_missing_dependency_fails ⟨false, true⟩ (fun _ _ => 0) ["a"] 10 (Or.inl rfl) (by simp)

/-! ### Claim C3 -/

/-- Claim C3 counterexample: with the numeric dependency unavailable, the LSA
strategy raises the configuration error even on the empty document — the
situation of `test_numpy_not_installed`, which expects `ValueError` from
`summarizer(build_document(), 10)` where `build_document()` has no sentences.
So an empty document does not unconditionally yield the empty summary. -/
theorem lsa_empty_document_can_fail :
    lsaSummarizer ⟨false, true⟩ (fun _ _ => (0 : ℚ)) ([] : List String) 10 =
      .error lsaDependencyError ∧
    lsaSummarizer ⟨false, true⟩ (fun _ _ => (0 : ℚ)) ([] : List String) 10 ≠
      .ok ([] : List String) := by
  refine ⟨rfl, fun h => ?_⟩
  rw [show lsaSummarizer ⟨false, true⟩ (fun _ _ => (0 : ℚ)) ([] : List String) 10 =
      .error lsaDependencyError from rfl] at h
  exact Except.noConfusion h

/-- Claim C3 (amended): every strategy returns the empty list on the empty
document; with its dependencies available the LSA strategy returns `.ok []`
and its result does not depend on the decomposition routine (no decomposition
is attempted); with a dependency unavailable, LSA raises the configuration
error even on the empty document. -/
theorem empty_document_gives_empty_summary {α : Type} :
    (∀ (rate : List α → ℕ → ℚ) (n : ℕ), runStrategy rate ([] : List α) n = []) ∧
    (∀ (deps : LsaDeps) (r₁ r₂ : List α → ℕ → ℚ) (n : ℕ),
        deps.numpyAvailable = true → deps.svdAvailable = true →
        lsaSummarizer deps r₁ ([] : List α) n = .ok [] ∧
        lsaSummarizer deps r₁ ([] : List α) n = lsaSummarizer deps r₂ ([] : List α) n) ∧
    (∀ (deps : LsaDeps) (r : List α → ℕ → ℚ) (n : ℕ),
        deps.numpyAvailable = false ∨ deps.svdAvailable = false →
        lsaSummarizer deps r ([] : List α) n = .error lsaDependencyError) := by
  have hempty : ∀ (score : ℕ → ℚ) (n : ℕ), summarize ([] : List α) score n = [] := by
    intro score n
    have h := summarize_length ([] : List α) score n
    simp only [List.length_nil, Nat.min_zero] at h
    exact List.length_eq_zero.mp h
  refine ⟨fun rate n => hempty _ n, fun deps r₁ r₂ n h1 h2 => ?_, fun deps r n h => ?_⟩
  · have hcond : ¬(deps.numpyAvailable = false ∨ deps.svdAvailable = false) := by
      simp [h1, h2]
    constructor
    · unfold lsaSummarizer
      rw [if_neg hcond, hempty]
    · unfold lsaSummarizer
      rw [if_neg hcond, if_neg hcond, hempty, hempty]
  · unfold lsaSummarizer
    rw [if_pos h]

/-- Witness for C3 (amended): concrete empty document, dependencies present,
two different decomposition routines. -/
theorem empty_document_gives_empty_summary_witness :
    runStrategy (fun _ _ => (0 : ℚ)) ([] : List String) 10 = [] ∧
    lsaSummarizer ⟨true, true⟩ (fun _ _ => (0 : ℚ)) ([] : List String) 10 = .ok [] ∧
    lsaSummarizer ⟨true, true⟩ (fun _ _ => (0 : ℚ)) ([] : List String) 10 =
      lsaSummarizer ⟨true, true⟩ (fun _ _ => (1 : ℚ)) ([] : List String) 10 :=
  ⟨empty_document_gives_empty_summary.1 (fun _ _ => 0) 10,
   (empty_document_gives_empty_summary.2.1 ⟨true, true⟩ (fun _ _ => 0) (fun _ _ => 1) 10
      rfl rfl).1,
   (empty_document_gives_empty_summary.2.1 ⟨true, true⟩ (fun _ _ => 0) (fun _ _ => 1) 10
      rfl rfl).2⟩

/-! ### Claim C4 -/

/-- Claim C4: cosine similarity of two term-frequency models is the dot
product of their frequency vectors divided by the product of their magnitudes;
it is `1` when a nonzero model is compared with itself, `0` for models over
disjoint vocabularies, and defined as `0` (no division fault) whenever either
magnitude is zero. -/
theorem cosine_similarity_spec :
    (∀ a b : TfDocumentModel, a.magnitudeSq ≠ 0 → b.magnitudeSq ≠ 0 →
        cosine_similarity a b = (dotProduct a b : ℝ) / (a.magnitude * b.magnitude)) ∧
    (∀ a : TfDocumentModel, a.magnitudeSq ≠ 0 → cosine_similarity a a = 1) ∧
    (∀ a b : TfDocumentModel, a.terms ∩ b.terms = ∅ → cosine_similarity a b = 0) ∧
    (∀ a b : TfDocumentModel, a.magnitudeSq = 0 ∨ b.magnitudeSq = 0 →
        cosine_similarity a b = 0) := by
  have hzero : ∀ a b : TfDocumentModel, a.magnitudeSq = 0 ∨ b.magnitudeSq = 0 →
      cosine_similarity a b = 0 := by
    intro a b h
    unfold cosine_similarity
    rw [if_pos h]
  refine ⟨?_, ?_, ?_, hzero⟩
  · intro a b ha hb
    unfold cosine_similarity
    rw [if_neg (by tauto)]
  · intro a ha
    unfold cosine_similarity
    rw [if_neg (by tauto)]
    unfold TfDocumentModel.magnitude
    rw [Real.mul_self_sqrt (Nat.cast_nonneg _)]
    show (a.magnitudeSq : ℝ) / (a.magnitudeSq : ℝ) = 1
    exact div_self (Nat.cast_ne_zero.mpr ha)
  · intro a b h
    by_cases hz : a.magnitudeSq = 0 ∨ b.magnitudeSq = 0
    · exact hzero a b hz
    · unfold cosine_similarity
      rw [if_neg hz, dotProduct_disjoint_eq_zero a b h]
      simp

/-- Witness for C4: a model compared with itself, two disjoint one-word
models, and an empty (zero-magnitude) model. -/
theorem cosine_similarity_spec_witness :
    cosine_similarity ⟨["a"]⟩ ⟨["a"]⟩ = 1 ∧
    cosine_similarity ⟨["a"]⟩ ⟨["b"]⟩ = 0 ∧
    cosine_similarity ⟨[]⟩ ⟨["a"]⟩ = 0 :=
  ⟨cosine_similarity_spec.2.1 ⟨["a"]⟩ (by decide),
   cosine_similarity_spec.2.2.1 ⟨["a"]⟩ ⟨["b"]⟩ (by decide),
   cosine_similarity_spec.2.2.2 ⟨[]⟩ ⟨["a"]⟩ (Or.inl (by decide))⟩

/-! ### Claim C5 -/

/-- Claim C5: precision is `|evaluated ∩ reference words| / |evaluated words|`
over the distinct-word sets and `0` when the evaluated collection is empty;
recall is `|evaluated ∩ reference words| / |reference words|` and `0` when the
reference is empty; for any collection `X` with at least one word,
`precision X X = 1` and `recall X X = 1`. -/
theorem precision_recall_spec :
    (∀ evaluated reference : List Sentence, wordSet evaluated ≠ ∅ →
        precision evaluated reference =
          ((wordSet evaluated ∩ wordSet reference).card : ℚ) / (wordSet evaluated).card) ∧
    (∀ reference : List Sentence, precision [] reference = 0) ∧
    (∀ evaluated reference : List Sentence, wordSet reference ≠ ∅ →
        «recall» evaluated reference =
          ((wordSet evaluated ∩ wordSet reference).card : ℚ) / (wordSet reference).card) ∧
    (∀ evaluated : List Sentence, «recall» evaluated [] = 0) ∧
    (∀ X : List Sentence, wordSet X ≠ ∅ → precision X X = 1 ∧ «recall» X X = 1) := by
  have hnil : wordSet ([] : List Sentence) = ∅ := rfl
  have hself : ∀ X : List Sentence, wordSet X ≠ ∅ →
      ((wordSet X ∩ wordSet X).card : ℚ) / (wordSet X).card = 1 := by
    intro X h
    rw [Finset.inter_self]
    exact div_self (Nat.cast_ne_zero.mpr (fun hc => h (Finset.card_eq_zero.mp hc)))
  refine ⟨?_, ?_, ?_, ?_, ?_⟩
  · intro evaluated reference h
    unfold precision
    rw [if_neg h]
  · intro reference
    unfold precision
    rw [if_pos hnil]
  · intro evaluated reference h
    unfold «recall»
    rw [if_neg h]
  · intro evaluated
    unfold «recall»
    rw [if_pos hnil]
  · intro X h
    constructor
    · unfold precision
      rw [if_neg h]
      exact hself X h
    · unfold «recall»
      rw [if_neg h]
      exact hself X h

/-- Witness for C5: a one-sentence, one-word collection compared with itself,
and an empty evaluated collection. -/
theorem precision_recall_spec_witness :
    precision [Sentence.mk ["a"]] [Sentence.mk ["a"]] = 1 ∧
    «recall» [Sentence.mk ["a"]] [Sentence.mk ["a"]] = 1 ∧
    precision [] [Sentence.mk ["a"]] = 0 :=
  ⟨(precision_recall_spec.2.2.2.2 [Sentence.mk ["a"]] (by decide)).1,
   (precision_recall_spec.2.2.2.2 [Sentence.mk ["a"]] (by decide)).2,
   precision_recall_spec.2.1 [Sentence.mk ["a"]]⟩

/-! ### Claim C6 -/

/-- Claim C6: `f_score` at `β = 1` is the harmonic combination
`2·P·R / (P + R)` of precision and recall, equal to `0` when both are `0`, and
equal to exactly `1/2` whenever precision and recall are both `1/2`. -/
theorem f_score_spec :
    (∀ evaluated reference : List Sentence,
        ¬(precision evaluated reference = 0 ∧ «recall» evaluated reference = 0) →
        f_score evaluated reference 1 =
          2 * precision evaluated reference * «recall» evaluated reference /
            (precision evaluated reference + «recall» evaluated reference)) ∧
    (∀ evaluated reference : List Sentence,
        precision evaluated reference = 0 → «recall» evaluated reference = 0 →
        f_score evaluated reference 1 = 0) ∧
    (∀ evaluated reference : List Sentence,
        precision evaluated reference = 1 / 2 → «recall» evaluated reference = 1 / 2 →
        f_score evaluated reference 1 = 1 / 2) := by
  refine ⟨?_, ?_, ?_⟩
  · intro evaluated reference h
    unfold f_score
    rw [if_neg h]
    norm_num
  · intro evaluated reference hp hr
    unfold f_score
    rw [if_pos ⟨hp, hr⟩]
  · intro evaluated reference hp hr
    unfold f_score
    rw [hp, hr]
    norm_num

/-- Witness for C6: concrete collections with precision and recall both
`1/2` (word sets `{a, b}` and `{a, c}`). -/
theorem f_score_spec_witness :
    precision [Sentence.mk ["a", "b"]] [Sentence.mk ["a", "c"]] = 1 / 2 ∧
    «recall» [Sentence.mk ["a", "b"]] [Sentence.mk ["a", "c"]] = 1 / 2 ∧
    f_score [Sentence.mk ["a", "b"]] [Sentence.mk ["a", "c"]] 1 = 1 / 2 := by
  have hp : precision [Sentence.mk ["a", "b"]] [Sentence.mk ["a", "c"]] = 1 / 2 := by
    rw [precision_eval _ _ 1 2 (by decide) (by decide) (by decide)]
    norm_num
  have hr : «recall» [Sentence.mk ["a", "b"]] [Sentence.mk ["a", "c"]] = 1 / 2 := by
    rw [recall_eval _ _ 1 2 (by decide) (by decide) (by decide)]
    norm_num
  exact ⟨hp, hr, f_score_spec.2.2 [Sentence.mk ["a", "b"]] [Sentence.mk ["a", "c"]] hp hr⟩

/-! ### Claim C8 -/

/-- Claim C8: cosine similarity and unit overlap are commutative; unit overlap
is the Jaccard-style ratio `|A∩B| / (|A| + |B| − |A∩B|)` over the
distinct-term sets with the `0/0` case defined as `0`; precision and recall
are not commutative. -/
theorem similarity_commutativity :
    (∀ a b : TfDocumentModel, cosine_similarity a b = cosine_similarity b a) ∧
    (∀ a b : TfDocumentModel, unit_overlap a b = unit_overlap b a) ∧
    (∀ a b : TfDocumentModel, unit_overlap a b =
        if a.terms.card + b.terms.card - (a.terms ∩ b.terms).card = 0 then 0
        else ((a.terms ∩ b.terms).card : ℚ) /
          ((a.terms.card + b.terms.card - (a.terms ∩ b.terms).card : ℕ) : ℚ)) ∧
    (∀ a b : TfDocumentModel, a.terms = ∅ → b.terms = ∅ → unit_overlap a b = 0) ∧
    ¬(∀ X Y : List Sentence, precision X Y = precision Y X) ∧
    ¬(∀ X Y : List Sentence, «recall» X Y = «recall» Y X) := by
  refine ⟨?_, ?_, fun a b => rfl, ?_, ?_, ?_⟩
  · intro a b
    unfold cosine_similarity
    by_cases h : a.magnitudeSq = 0 ∨ b.magnitudeSq = 0
    · rw [if_pos h, if_pos (Or.symm h)]
    · rw [if_neg h, if_neg (fun hs => h (Or.symm hs)), dotProduct_comm a b,
        mul_comm a.magnitude b.magnitude]
  · intro a b
    unfold unit_overlap
    rw [Finset.inter_comm a.terms b.terms, Nat.add_comm a.terms.card b.terms.card]
  · intro a b ha hb
    unfold unit_overlap
    rw [ha, hb]
    simp
  · intro h
    have h1 : precision [Sentence.mk ["a"]] [Sentence.mk ["a", "b"]] = 1 := by
      rw [precision_eval _ _ 1 1 (by decide) (by decide) (by decide)]
      norm_num
    have h2 : precision [Sentence.mk ["a", "b"]] [Sentence.mk ["a"]] = 1 / 2 := by
      rw [precision_eval _ _ 1 2 (by decide) (by decide) (by decide)]
      norm_num
    have := h [Sentence.mk ["a"]] [Sentence.mk ["a", "b"]]
    rw [h1, h2] at this
    norm_num at this
  · intro h
    have h1 : «recall» [Sentence.mk ["a"]] [Sentence.mk ["a", "b"]] = 1 / 2 := by
      rw [recall_eval _ _ 1 2 (by decide) (by decide) (by decide)]
      norm_num
    have h2 : «recall» [Sentence.mk ["a", "b"]] [Sentence.mk ["a"]] = 1 := by
      rw [recall_eval _ _ 1 1 (by decide) (by decide) (by decide)]
      norm_num
    have := h [Sentence.mk ["a"]] [Sentence.mk ["a", "b"]]
    rw [h1, h2] at this
    norm_num at this

/-- Witness for C8: the `0/0` overlap case on two empty models. -/
theorem similarity_commutativity_witness :
    unit_overlap ⟨[]⟩ ⟨[]⟩ = 0 :=
  similarity_commutativity.2.2.2.1 ⟨[]⟩ ⟨[]⟩ rfl rfl

/-! ### Claim C7 -/

/-- Claim C7 counterexample: the same percentage specification resolved
against documents of *different* lengths can yield the *same* absolute
count — `"50%"` resolves to `5` against both a 10-sentence and an 11-sentence
document under the floor rounding rule (any deterministic rounding admits
such collisions). -/
theorem items_count_collision :
    (10 : ℕ) ≠ 11 ∧
    ItemsCount.resolve (.percentage 50) 10 = 5 ∧
    ItemsCount.resolve (.percentage 50) 11 = 5 := by
  decide

/-- Claim C7 (amended): a length specification accepts a bare integer or a
percentage string, and is resolved against a document's sentence count at call
time by a single deterministic rule (floor of the percentage), clamped into
`[0, total]`; `"50%"` against a 10-sentence document yields exactly `5`, and
the resolved count depends on the document's length (the same specification
can resolve to different counts against documents of different lengths),
although distinct lengths may also round to the same count. -/
theorem items_count_spec :
    ItemsCount.parse "50%" = some (.percentage 50) ∧
    ItemsCount.parse "7" = some (.absolute 7) ∧
    (∀ (c : ItemsCount) (total : ℕ), ItemsCount.resolve c total ≤ total) ∧
    ItemsCount.resolve (.percentage 50) 10 = 5 ∧
    ItemsCount.resolve (.percentage 50) 10 ≠ ItemsCount.resolve (.percentage 50) 4 := by
  refine ⟨by decide, by decide, ?_, by decide, by decide⟩
  intro c total
  cases c with
  | absolute count => exact Nat.min_le_right count total
  | percentage percent => exact Nat.min_le_right _ total

/-! ### Claim C9 -/

/-- Claim C9: the evaluation loop of `main` computes all seven metrics, in
the fixed `AVAILABLE_EVALUATIONS` order; the two metrics labelled
`(document)` compare the produced summary against the full document's
sentences, every other metric compares it against the parsed reference
summary's sentences. -/
theorem evaluation_loop_spec (evaluated document reference : List Sentence) :
    evaluationResults evaluated document reference =
      [("Precision", (precision evaluated reference : ℝ)),
       ("Recall", («recall» evaluated reference : ℝ)),
       ("F-score", (f_score evaluated reference 1 : ℝ)),
       ("Cosine similarity", evaluate_cosine_similarity evaluated reference),
       ("Cosine similarity (document)", evaluate_cosine_similarity evaluated document),
       ("Unit overlap", (evaluate_unit_overlap evaluated reference : ℝ)),
       ("Unit overlap (document)", (evaluate_unit_overlap evaluated document : ℝ))] ∧
    (evaluationResults evaluated document reference).length = 7 :=
  ⟨rfl, rfl⟩

/-! ### Claim C10 -/

/-- Claim C10: the evaluation CLI always uses Czech language resources,
whatever the command-line input — both tokenizers are `Tokenizer("czech")`,
and the Luhn, Edmundson and LSA builders construct their summarizers with the
Czech stemmer and Czech stop words (Edmundson's stop words are its null
words, its bonus/stigma words come from the parsed document), while the
random builder takes none. -/
theorem cli_always_czech (parsed : ParserOutput) :
    inputTokenizerLanguage = "czech" ∧
    referenceTokenizerLanguage = "czech" ∧
    AVAILABLE_METHODS.map Prod.fst = ["random", "luhn", "edmundson", "lsa"] ∧
    build_random parsed = ⟨none, none, none, none, none⟩ ∧
    (build_luhn parsed).stemmerLanguage = some "cs" ∧
    (build_luhn parsed).stopWordsLanguage = some "cs" ∧
    (build_edmundson parsed).stemmerLanguage = some "cs" ∧
    (build_edmundson parsed).nullWordsLanguage = some "cs" ∧
    (build_edmundson parsed).bonusWords = some parsed.significant_words ∧
    (build_edmundson parsed).stigmaWords = some parsed.stigma_words ∧
    (build_lsa parsed).stemmerLanguage = some "cs" ∧
    (build_lsa parsed).stopWordsLanguage = some "cs" :=
  ⟨rfl, rfl, rfl, rfl, rfl, rfl, rfl, rfl, rfl, rfl, rfl, rfl⟩

end Sumy
